import Mathlib

/-!
Verification of the hybrid speech-to-text decision engine of this repository.

The embedding covers:
* `app/transcription/speech_recognition.py` (`transcribe_audio`),
* `app/transcription/openai_whisper.py` (`transcribe_with_openai`,
  `transcribe_audio_hybrid`, `chunk_large_audio`, `transcribe_large_audio`),
* `app/hybrid/controller_new.py` (`process_audio_hybrid`, openai-first variant),
* `app/hybrid/controller.py` (`process_audio_hybrid`, legacy local-first variant).

Modelling conventions:
* Confidences, scores, durations in seconds: `ℚ` (the Python code uses floats
  only for comparisons, min, averaging and a fixed literal table, all exact here).
* Millisecond durations and byte sizes: `ℕ`.
* A Python function that may raise is modelled as returning `Except String`;
  the string is the exception message where the message matters downstream.
* Each external call site (OpenAI API, local whisper model inference, speaker
  verification, sentence-embedding similarity) is an oracle value stored in an
  environment structure: one field per call site, so that distinct invocations
  within one request can answer differently while a re-run of the same request
  against the same environment is exactly reproducible.
* `max(set(xs), key=xs.count)` in Python iterates the set in an
  implementation-defined (hash-seed dependent) order; it is modelled by an
  explicit enumeration-order parameter constrained by `IsPySetOrder`.
* Ghost instrumentation: results carry the ordered list of provider attempts
  actually issued (`attempts`), used to reason about "second attempt" claims.
-/

namespace Whisper

/-- 25 MiB single-shot ceiling, `MAX_FILE_SIZE` in `openai_whisper.py`. -/
def MAX_FILE_SIZE : ℕ := 25 * 1024 * 1024

/-- Default chunk size in bytes: `chunk_size_mb = 20.0` in `chunk_large_audio`. -/
def DEFAULT_CHUNK_SIZE_BYTES : ℕ := 20 * 1024 * 1024

/-- Normalized audio handle: opaque content is irrelevant, only size and
duration (milliseconds, as `len(audio)` for a pydub segment) matter. -/
structure Audio where
  sizeBytes : ℕ
  durationMs : ℕ
  deriving DecidableEq, Repr

/-- Python `str.split()` with no argument: split on whitespace runs, dropping
empty pieces. -/
def pySplit (s : String) : List String :=
  (s.split (fun c => c.isWhitespace)).filter (fun w => w ≠ "")

/-- Python `xs[-20:]`: the trailing at-most-20 elements. -/
def lastTwenty (l : List String) : List String :=
  l.drop (l.length - 20)

/-- Python `max(iterable, key=key)`: first maximal element in iteration
order (ties keep the earlier element). Empty input is guarded at call sites;
it is given a junk value here. -/
def pyMaxBy (ord : List String) (key : String → ℕ) : String :=
  match ord with
  | [] => ""
  | h :: t => t.foldl (fun best x => if key best < key x then x else best) h

/-- The enumeration orders that Python `set(langs)` can produce: each distinct
element of `langs` exactly once, in some order. -/
def IsPySetOrder (langs ord : List String) : Prop :=
  ord.Nodup ∧ (∀ x ∈ ord, x ∈ langs) ∧ (∀ x ∈ langs, x ∈ ord)

instance (langs ord : List String) : Decidable (IsPySetOrder langs ord) := by
  unfold IsPySetOrder; infer_instance

/-- Distinct elements of a list in order of first occurrence. -/
def firstOccurrenceDistinct (l : List String) : List String :=
  l.foldl (fun acc x => if x ∈ acc then acc else acc ++ [x]) []

/-- Modelled from the spec: "final language is the most frequently detected
language across chunks (ties broken by first occurrence)" — the spec-side
aggregation of the language field, to be compared with the code's
`max(set(languages), key=languages.count)`. -/
def spec_mostFrequentLanguage (langs : List String) : String :=
  pyMaxBy (firstOccurrenceDistinct langs) (fun x => langs.count x)

/-! ## Provider layer -/

/-- Process-global provider configuration, fixed at startup:
`openai_client is not None`, `OPENAI_MODEL.startswith("gpt-4o")`,
`FALLBACK_TO_LOCAL`, and whether `whisper_model` loaded in
`speech_recognition.py`. -/
structure ProviderConfig where
  openaiClient : Bool
  modelIsGpt4o : Bool
  fallbackToLocal : Bool
  whisperModelInitialized : Bool
  deriving DecidableEq, Repr

/-- Responses of one invocation of the provider pair: what the OpenAI API call
would yield (`response.text`, or an exception) and what one local whisper
inference would yield (raw text, per-segment confidences, language — or an
internal exception). -/
structure ProviderCallResults where
  openaiResult : Except String String
  localResult : Except String (String × List ℚ × String)
  deriving Repr

/-- `speech_recognition.transcribe_audio`: raises when the model failed to
initialize, otherwise converts any internal exception into the normal return
`("Error during transcription", 0.0, "unknown")`; confidence is the mean of
segment confidences (0 when there are none); unauthorized (`detailed=False`)
output is the fixed notice with confidence capped at 0.5. The environment
supplies the model's text already whitespace-stripped (the source's
`result["text"].strip()` is pure string plumbing). -/
def transcribe_audio (modelInitialized : Bool)
    (res : Except String (String × List ℚ × String)) (detailed : Bool) :
    Except String (String × ℚ × String) :=
  if modelInitialized = false then
    .error "Whisper model not initialized"
  else
    match res with
    | .error _ => .ok ("Error during transcription", 0, "unknown")
    | .ok (text, segs, lang) =>
      let confidence : ℚ := if segs.isEmpty then 0 else segs.sum / segs.length
      if detailed then
        .ok (text, confidence, lang)
      else
        .ok ("Voice authentication required for full transcription",
             min confidence (1/2), lang)

/-- `openai_whisper.transcribe_with_openai`: raises when no client, raises on
oversize input, propagates API exceptions; otherwise fixes the confidence
from the model name and echoes the language (or `"auto"`). The environment
supplies the response text already whitespace-stripped (the source's
`text.strip()` is pure string plumbing). -/
def transcribe_with_openai (cfg : ProviderConfig) (apiResult : Except String String)
    (audio : Audio) (language : Option String) :
    Except String (String × ℚ × String) :=
  if cfg.openaiClient = false then
    .error "OpenAI client not initialized"
  else if MAX_FILE_SIZE < audio.sizeBytes then
    .error "File size exceeds OpenAI limit"
  else
    match apiResult with
    | .error e => .error e
    | .ok t =>
      let confidence : ℚ := if cfg.modelIsGpt4o then 95/100 else 85/100
      .ok (t, confidence, language.getD "auto")

/-- Result of `openai_whisper.transcribe_audio_hybrid` plus the ghost list of
provider attempts the router actually issued, in order. -/
structure HybridResult where
  text : String
  confidence : ℚ
  language : String
  source : String
  attempts : List String
  deriving DecidableEq, Repr

/-- The local-fallback tail of `transcribe_audio_hybrid` (its code after the
OpenAI branch): try local whisper when `FALLBACK_TO_LOCAL`, else fall through
to the all-failed result built from the accumulated error messages. -/
def hybrid_local_step (cfg : ProviderConfig) (call : ProviderCallResults)
    (detailed : Bool) (errors : List String) (attempts : List String) :
    HybridResult :=
  if cfg.fallbackToLocal then
    match transcribe_audio cfg.whisperModelInitialized call.localResult detailed with
    | .ok (t, c, l) => ⟨t, c, l, "local", attempts ++ ["local"]⟩
    | .error e =>
      let errors := errors ++ ["Local Whisper transcription failed: " ++ e]
      ⟨"Transcription failed: " ++ String.intercalate "; " errors, 0, "unknown",
       "failed", attempts ++ ["local"]⟩
  else
    ⟨"Transcription failed: " ++ String.intercalate "; " errors, 0, "unknown",
     "failed", attempts⟩

/-- `openai_whisper.transcribe_audio_hybrid`: OpenAI first when requested and
configured (redacting text and capping confidence at 0.5 for unauthorized
callers), local whisper as fallback, and a `failed` result with aggregated
error text when everything failed. Total: never raises. -/
def transcribe_audio_hybrid (cfg : ProviderConfig) (call : ProviderCallResults)
    (audio : Audio) (detailed : Bool) (language : Option String)
    (_prompt : Option String) (useOpenaiFirst : Bool) : HybridResult :=
  if useOpenaiFirst ∧ cfg.openaiClient then
    match transcribe_with_openai cfg call.openaiResult audio language with
    | .ok (t, c, l) =>
      if detailed then ⟨t, c, l, "openai", ["openai"]⟩
      else ⟨"Voice authentication required for full transcription",
            min c (1/2), l, "openai", ["openai"]⟩
    | .error e =>
      hybrid_local_step cfg call detailed
        ["OpenAI transcription failed: " ++ e] ["openai"]
  else
    hybrid_local_step cfg call detailed [] []

/-! ## Chunk planner (`chunk_large_audio`) -/

/-- `chunk_duration_ms = int((chunk_size_mb / file_size_mb) * total_duration_ms)`
in `chunk_large_audio`, in exact arithmetic (Python `int()` truncates toward
zero, which is the floor here): millisecond duration of a nominal chunk. -/
def chunk_duration_ms (chunkSizeBytes sizeBytes totalMs : ℕ) : ℕ :=
  chunkSizeBytes * totalMs / sizeBytes

/-- `range(0, totalMs, step)`: the chunk start offsets. For `step = 0` Python
would raise `ValueError`; the model returns `[]` there (Lean's `x / 0 = 0`
makes the count formula collapse to 0). -/
def chunkStarts (totalMs step : ℕ) : List ℕ :=
  (List.range ((totalMs + step - 1) / step)).map (fun i => i * step)

/-- The time slices `(start_ms, end_ms)` produced by the splitting loop of
`chunk_large_audio`: `end_ms = min(start_ms + chunk_duration_ms, total_duration_ms)`. -/
def chunkSlices (totalMs step : ℕ) : List (ℕ × ℕ) :=
  (chunkStarts totalMs step).map (fun s => (s, min (s + step) totalMs))

/-- `chunk_large_audio` as a planner: `none` means no split (the source
returns `[audio_path]` when `file_size_mb <= chunk_size_mb`), otherwise the
list of time slices exported as chunk files. -/
def chunk_large_audio (chunkSizeBytes : ℕ) (audio : Audio) :
    Option (List (ℕ × ℕ)) :=
  if audio.sizeBytes ≤ chunkSizeBytes then none
  else some (chunkSlices audio.durationMs
    (chunk_duration_ms chunkSizeBytes audio.sizeBytes audio.durationMs))

/-! ## Chunked transcription (`transcribe_large_audio`) -/

/-- The context prompt for chunk `i` in the loop of `transcribe_large_audio`:
for `i > 0` with a previous transcription, the caller prompt (or `""`) plus
`" Previous context: "` plus the trailing 20 words of the previous chunk's
text. -/
def chunk_context_prompt (prompt : Option String) (i : ℕ) (prevTexts : List String) :
    Option String :=
  if 0 < i ∧ prevTexts ≠ [] then
    some ((prompt.getD "") ++ " Previous context: " ++
      String.intercalate " " (lastTwenty (pySplit (prevTexts.getLast?.getD ""))))
  else prompt

/-- The sequential per-chunk loop of `transcribe_large_audio`: chunk `i` is
transcribed by `transcribe_audio_hybrid` against its own call-site responses
`calls i` and its own chunk file `audios i`, with the rolling context prompt.
Accumulates (texts, confidences, languages, ghost attempts). -/
def chunkLoop (cfg : ProviderConfig) (calls : ℕ → ProviderCallResults)
    (audios : ℕ → Audio) (detailed : Bool) (language : Option String)
    (prompt : Option String) : ℕ → List String × List ℚ × List String × List String
  | 0 => ([], [], [], [])
  | n + 1 =>
    let (ts, cs, ls, att) := chunkLoop cfg calls audios detailed language prompt n
    let r := transcribe_audio_hybrid cfg (calls n) (audios n) detailed language
      (chunk_context_prompt prompt n ts) true
    (ts ++ [r.text], cs ++ [r.confidence], ls ++ [r.language], att ++ r.attempts)

/-- The aggregation tail of `transcribe_large_audio`:
`" ".join(transcriptions)`, `sum(confidences)/len(confidences)` (0 when
empty), and `max(set(languages), key=languages.count)` (`"unknown"` when
empty) with `ord` supplying the set's enumeration order. -/
def aggregate_chunks (ord : List String → List String)
    (ts : List String) (cs : List ℚ) (ls : List String) : String × ℚ × String :=
  (String.intercalate " " ts,
   if cs.isEmpty then 0 else cs.sum / (cs.length : ℚ),
   if ls.isEmpty then "unknown" else pyMaxBy (ord ls) (fun x => ls.count x))

/-- `openai_whisper.transcribe_large_audio`: single-shot for files of at most
25 MiB, otherwise split into 20 MiB-nominal chunks, transcribe sequentially
with rolling context, aggregate, and tag the result `"chunked"`. -/
def transcribe_large_audio (cfg : ProviderConfig)
    (calls : ℕ → ProviderCallResults) (audios : ℕ → Audio)
    (ord : List String → List String) (audio : Audio) (detailed : Bool)
    (language : Option String) (prompt : Option String) : HybridResult :=
  if audio.sizeBytes ≤ MAX_FILE_SIZE then
    transcribe_audio_hybrid cfg (calls 0) audio detailed language prompt true
  else
    let n := (chunkStarts audio.durationMs
      (chunk_duration_ms DEFAULT_CHUNK_SIZE_BYTES audio.sizeBytes audio.durationMs)).length
    let r := chunkLoop cfg calls audios detailed language prompt n
    let agg := aggregate_chunks ord r.1 r.2.1 r.2.2.1
    ⟨agg.1, agg.2.1, agg.2.2, "chunked", r.2.2.2⟩

/-! ## Resource model of the `try/finally` in `transcribe_large_audio`

The chunked branch of `transcribe_large_audio` creates chunk files inside a
chunk directory, runs the per-chunk loop inside a `try`, and in the `finally`
unlinks every chunk file (each `unlink` wrapped in `try/except: pass`) and
removes the directory when it is empty (`rmdir` likewise wrapped). The model
names chunk files by index. -/

/-- Temporary chunk storage: which chunk files exist, and whether the chunk
directory exists. -/
structure ChunkFS where
  files : List ℕ
  dirExists : Bool
  deriving DecidableEq, Repr

/-- The `finally` block: unlink each chunk file in order, then remove the
chunk directory when it ended up empty (a failing `rmdir` on a non-empty
directory is swallowed, leaving it in place). -/
def chunk_cleanup (chunkIds : List ℕ) (fs : ChunkFS) : ChunkFS :=
  let fs1 : ChunkFS := ⟨chunkIds.foldl (fun fls i => fls.erase i) fs.files, fs.dirExists⟩
  if fs1.files.isEmpty then {fs1 with dirExists := false} else fs1

/-- The guarded per-chunk loop body: transcribe chunks `0, …, n-1` in order,
stopping at the first chunk whose transcription raises (the `Except.error`
case models an exception escaping `transcribe_audio_hybrid`, e.g. a
cancellation; a "partial failure" is an `ok` chunk result carrying a failure
payload and is aggregated normally). -/
def chunkTryLoop (oracle : ℕ → Except String (String × ℚ × String)) :
    ℕ → Except String (List (String × ℚ × String))
  | 0 => .ok []
  | n + 1 =>
    match chunkTryLoop oracle n with
    | .error e => .error e
    | .ok acc =>
      match oracle n with
      | .error e => .error e
      | .ok r => .ok (acc ++ [r])

/-- `transcribe_large_audio`'s chunked branch as seen by the filesystem:
chunk files `0, …, n-1` and their directory are created, the guarded loop
runs to either a value or an exception, and the `finally` cleanup runs on
every one of those exit paths. Returns the loop outcome paired with the final
state of chunk storage. -/
def transcribe_large_audio_fs (oracle : ℕ → Except String (String × ℚ × String))
    (n : ℕ) : Except String (List (String × ℚ × String)) × ChunkFS :=
  (chunkTryLoop oracle n, chunk_cleanup (List.range n) ⟨List.range n, true⟩)

/-! ## Openai-first controller (`controller_new.py`) -/

/-- The per-request parameters of `controller_new.process_audio_hybrid`. -/
structure Request where
  verifySpeakerFlag : Bool
  useSemantics : Bool
  semanticThreshold : ℚ
  language : Option String
  prompt : Option String
  returnDebug : Bool

/-- Process-global controller configuration: `PRIMARY_SERVICE`,
whether the sentence transformer loaded, and the provider configuration. -/
structure ControllerConfig where
  pcfg : ProviderConfig
  primaryService : String
  sentenceTransformer : Bool

/-- Responses of the external world for one request to
`controller_new.process_audio_hybrid`: the `get_audio_metadata` call (its
exception, or the duration component of the tuple it returns), the
speaker-verification call, the main provider invocation, the
semantic-comparison provider invocation, the per-chunk provider invocations
and chunk files of the chunked path, the sentence-embedding cosine
similarity (may raise), and the enumeration order Python's `set` would use
during language aggregation. -/
structure ControllerEnv where
  metadataDuration : Except String ℚ
  verifyResult : Except String (Bool × ℚ)
  mainCall : ProviderCallResults
  semCall : ProviderCallResults
  chunkCalls : ℕ → ProviderCallResults
  chunkAudios : ℕ → Audio
  similarity : Except String ℚ
  setOrder : List String → List String

/-- The `DecisionOutcome` dictionary of `controller_new.process_audio_hybrid`,
plus the ghost list of provider attempts issued during the request. -/
structure Outcome where
  source : String
  text : String
  confidence : ℚ
  speakerMatch : Option ℚ
  duration : ℚ
  language : String
  fallbackUsed : Bool
  semanticDiff : Option ℚ
  debugAttached : Bool
  attempts : List String

/-- The semantic-validation block of `controller_new.process_audio_hybrid`
(entered only when `use_semantics` holds, the transformer is loaded, the
stage source is `"local"` and the caller is authorized): run a fresh
openai-first comparison transcription, compute the similarity (an embedding
exception aborts the block leaving the stage untouched), record
`semantic_diff = 1 - similarity`, and replace the result with the comparison
when `similarity < semantic_threshold`, tagging it `"openai_semantic"`. -/
def semantic_validation_step (stage comp : HybridResult)
    (similarity : Except String ℚ) (threshold : ℚ) :
    String × ℚ × String × String × Option ℚ × List String :=
  match similarity with
  | .error _ => (stage.text, stage.confidence, stage.language, stage.source,
      none, comp.attempts)
  | .ok s =>
    if s < threshold then
      (comp.text, comp.confidence, comp.language, "openai_semantic",
       some (1 - s), comp.attempts)
    else
      (stage.text, stage.confidence, stage.language, stage.source,
       some (1 - s), comp.attempts)

/-- Lines 73–74 of `controller_new.py`:
`metadata = get_audio_metadata(audio_path)` followed by
`audio_duration = metadata.get("duration", 0)`. `get_audio_metadata`
(`audio/processor.py`) returns a tuple `(duration, metadata_dict)` — the
legacy controller unpacks it as such — so the `.get` call on the tuple
raises `AttributeError: 'tuple' object has no attribute 'get'`
unconditionally. The step therefore never yields a duration: it re-raises
the processor's own exception, or else the `AttributeError`. -/
def metadata_duration_step (metadataResult : Except String ℚ) : Except String ℚ :=
  match metadataResult with
  | .error e => .error e
  | .ok _ => .error "'tuple' object has no attribute 'get'"

/-- The transcription stage of `controller_new.process_audio_hybrid`: chunked
transcription for files above 25 MiB, otherwise single-shot hybrid
transcription with `use_openai_first = (PRIMARY_SERVICE == "openai")`, in
either case with `detailed := authorized`. -/
def controller_stage (cfg : ControllerConfig) (env : ControllerEnv)
    (req : Request) (audio : Audio) (authorized : Bool) : HybridResult :=
  if MAX_FILE_SIZE < audio.sizeBytes then
    transcribe_large_audio cfg.pcfg env.chunkCalls env.chunkAudios
      env.setOrder audio authorized req.language req.prompt
  else
    transcribe_audio_hybrid cfg.pcfg env.mainCall audio authorized
      req.language req.prompt (cfg.primaryService == "openai")

/-- `controller_new.process_audio_hybrid`: metadata access, fail-closed
speaker verification with early minimal results unless debug is requested,
size-based choice between single-shot hybrid transcription and chunked
transcription, `fallback_used = source in ["local", "chunked"]`, optional
semantic validation, optional debug payload; the outer `except` yields the
`"error"` outcome. Because `metadata_duration_step` always raises (the
tuple/`.get` bug at lines 73–74), the outer handler fires on every request
and everything after the metadata access is dead code; it is nevertheless
modelled in full, mirroring the source. -/
def process_audio_hybrid_new (cfg : ControllerConfig) (env : ControllerEnv)
    (req : Request) (audio : Audio) : Outcome :=
  match metadata_duration_step env.metadataDuration with
  | .error e =>
    ⟨"error", "Processing error: " ++ e, 0, none, 0, "unknown", false, none,
     false, []⟩
  | .ok duration =>
    let verStep : (Option ℚ × Bool) ⊕ Outcome :=
      if req.verifySpeakerFlag then
        match env.verifyResult with
        | .ok (verified, score) =>
          if ¬verified ∧ ¬req.returnDebug then
            .inr ⟨"verification_failed", "Speaker verification failed", 0,
              some score, duration, "unknown", false, none, false, []⟩
          else .inl (some score, verified)
        | .error _ =>
          if ¬req.returnDebug then
            .inr ⟨"verification_error", "Speaker verification error", 0,
              some 0, duration, "unknown", false, none, false, []⟩
          else .inl (some 0, false)
      else .inl (none, false)
    match verStep with
    | .inr o => o
    | .inl (speakerMatch, speakerVerified) =>
      let authorized : Bool := !req.verifySpeakerFlag || speakerVerified
      let stage : HybridResult := controller_stage cfg env req audio authorized
      let fallbackUsed : Bool := stage.source == "local" || stage.source == "chunked"
      let sem : String × ℚ × String × String × Option ℚ × List String :=
        if req.useSemantics && cfg.sentenceTransformer &&
            (stage.source == "local") && authorized then
          let comp := transcribe_audio_hybrid cfg.pcfg env.semCall audio true
            req.language req.prompt true
          semantic_validation_step stage comp env.similarity req.semanticThreshold
        else
          (stage.text, stage.confidence, stage.language, stage.source, none, [])
      ⟨sem.2.2.2.1, sem.1, sem.2.1, speakerMatch, duration, sem.2.2.1,
       fallbackUsed, sem.2.2.2.2.1, req.returnDebug,
       stage.attempts ++ sem.2.2.2.2.2⟩

/-! ## Legacy local-first controller (`controller.py`) -/

/-- A successful `process_audio_remote` response, already formatted
(source `"remote"`, `fallback_used = False`, `semantic_diff = None`). -/
structure RemoteResult where
  text : String
  confidence : ℚ
  speakerMatch : Option ℚ
  duration : ℚ
  language : String

/-- The result dictionary of `controller.process_audio_hybrid`, plus the
ghost flag recording whether `process_audio_remote` was invoked (a second
provider attempt was issued). -/
structure LegacyOutcome where
  source : String
  text : String
  confidence : ℚ
  speakerMatch : Option ℚ
  duration : ℚ
  language : String
  fallbackUsed : Bool
  semanticDiff : Option ℚ
  remoteAttempted : Bool

/-- Process-global configuration of `controller.py`: `REMOTE_API_URL`
non-empty, thresholds, `USE_SEMANTIC_VALIDATION` together with a loaded
sentence transformer (the module couples them), and whether the local
whisper model initialized. `semanticThreshold` is the effective value after
the environment-variable override. -/
structure LegacyConfig where
  remoteApiUrl : Bool
  minConfidence : ℚ
  minSpeakerMatch : ℚ
  semanticThreshold : ℚ
  semanticValidation : Bool
  whisperModelInitialized : Bool

/-- External responses for one request to `controller.process_audio_hybrid`:
audio duration (`get_audio_metadata` sits outside the `try`, so it is a plain
value), the verification call, one local whisper inference, the remote call of
the fallback step, the remote call of the error handler, and the raw embedding
cosine similarity. -/
structure LegacyEnv where
  duration : ℚ
  verifyResult : Except String (Bool × ℚ)
  localResult : Except String (String × List ℚ × String)
  remoteResult : Option RemoteResult
  remoteResult2 : Option RemoteResult
  similarity : ℚ

/-- `controller.calculate_semantic_similarity`: 0 when no sentence
transformer is loaded, otherwise the embedding cosine similarity. -/
def calculate_semantic_similarity (hasTransformer : Bool) (sim : ℚ) : ℚ :=
  if hasTransformer then sim else 0

/-- Format of `process_audio_remote`'s dictionary as a `LegacyOutcome`. -/
def remote_outcome (r : RemoteResult) : LegacyOutcome :=
  ⟨"remote", r.text, r.confidence, r.speakerMatch, r.duration, r.language,
   false, none, false⟩

/-- Steps 2b–3 of `controller.process_audio_hybrid` once a remote result
arrived (lines 121–146): with semantics enabled and both texts non-empty,
store the raw similarity in `semantic_diff` and keep the local result unless
the remote confidence is strictly higher and the agreement-override
(`semantic_diff >= threshold and confidence >= 0.7`) does not apply; without
semantics, adopt the remote result exactly when its confidence is strictly
higher. -/
def legacy_arbitrate (semanticsOn : Bool) (rawSim threshold : ℚ)
    (r2 : LegacyOutcome) (remote : RemoteResult) : LegacyOutcome :=
  if semanticsOn ∧ r2.text ≠ "" ∧ remote.text ≠ "" then
    let semanticDiff := calculate_semantic_similarity semanticsOn rawSim
    let r3 := {r2 with semanticDiff := some semanticDiff}
    if r2.confidence < remote.confidence then
      if threshold ≤ semanticDiff ∧ (7 : ℚ)/10 ≤ r2.confidence then
        {r3 with fallbackUsed := false}
      else
        {remote_outcome remote with fallbackUsed := true, semanticDiff := some semanticDiff, remoteAttempted := r2.remoteAttempted}
    else {r3 with fallbackUsed := false}
  else
    if r2.confidence < remote.confidence then
      {remote_outcome remote with fallbackUsed := true, remoteAttempted := r2.remoteAttempted}
    else r2

/-- The `except` handler of `controller.process_audio_hybrid`: retry remotely
when a remote URL is configured (adopting the remote result with
`fallback_used = True`), otherwise patch the partial result with
`"Error processing audio"` and confidence 0. -/
def legacy_error_handler (cfg : LegacyConfig) (env : LegacyEnv)
    (partialResult : LegacyOutcome) : LegacyOutcome :=
  if cfg.remoteApiUrl then
    match env.remoteResult2 with
    | some r => {remote_outcome r with fallbackUsed := true, remoteAttempted := true}
    | none => {partialResult with text := "Error processing audio", confidence := 0, remoteAttempted := true}
  else
    {partialResult with text := "Error processing audio", confidence := 0}

/-- The body of `controller.process_audio_hybrid` from the local
transcription onward (lines 94–146): transcribe locally with
`detailed=True`, decide the fallback from the confidence and speaker-match
thresholds, consult the remote API when needed, arbitrate; a raising local
transcription goes to the exception handler. -/
def legacy_transcribe_and_fallback (cfg : LegacyConfig) (env : LegacyEnv)
    (verifyFlag : Bool) (r1 : LegacyOutcome) (speakerMatch : ℚ) : LegacyOutcome :=
  match transcribe_audio cfg.whisperModelInitialized env.localResult true with
  | .error _ => legacy_error_handler cfg env r1
  | .ok (text, conf, lang) =>
    let r2 := {r1 with text := text, confidence := conf, language := lang}
    let useFallback : Prop :=
      conf < cfg.minConfidence ∨ (verifyFlag ∧ speakerMatch < cfg.minSpeakerMatch)
    if useFallback ∧ cfg.remoteApiUrl then
      match env.remoteResult with
      | none => {r2 with remoteAttempted := true}
      | some remote =>
        {legacy_arbitrate cfg.semanticValidation env.similarity
          cfg.semanticThreshold r2 remote with remoteAttempted := true}
    else r2

/-- `controller.process_audio_hybrid` (legacy local-first variant): local
transcription with `detailed=True`, threshold-based fallback decision, remote
fallback with optional semantic arbitration, exception handler with remote
retry. `return_debug` is accepted but never used by the source body. -/
def process_audio_hybrid_legacy (cfg : LegacyConfig) (env : LegacyEnv)
    (verifyFlag _returnDebug : Bool) : LegacyOutcome :=
  let result0 : LegacyOutcome :=
    ⟨"local", "", 0, if verifyFlag then some 0 else none, env.duration, "",
     false, none, false⟩
  if verifyFlag then
    match env.verifyResult with
    | .error _ => legacy_error_handler cfg env result0
    | .ok (_, m) =>
      legacy_transcribe_and_fallback cfg env verifyFlag
        {result0 with speakerMatch := some m} m
  else
    legacy_transcribe_and_fallback cfg env verifyFlag result0 0

/-! ## Concrete instances used by counterexamples and witnesses -/

/-- Legacy configuration: remote URL set, default thresholds, no semantics,
local whisper model failed to initialize. -/
def c1xCfg : LegacyConfig := ⟨true, 85/100, 9/10, 75/100, false, false⟩

/-- Legacy environment: both provider attempts fail (local raises because the
model is uninitialized, the remote retry of the error handler returns no
result). -/
def c1xEnv : LegacyEnv := ⟨1, .ok (true, 1), .ok ("hello", [1/2], "en"), none, none, 0⟩

/-- Provider configuration with no OpenAI client and local fallback
disabled: every attempt of `transcribe_audio_hybrid` fails. -/
def c1wPcfg : ProviderConfig := ⟨false, true, false, true⟩

/-- Call-site responses where both providers would fail. -/
def c1wCall : ProviderCallResults := ⟨.error "boom", .error "crash"⟩

/-- A 100-byte, 1-second audio file. -/
def c1wAudio : Audio := ⟨100, 1000⟩

/-- Legacy configuration with the remote URL set, default thresholds, no
semantics, working local model. -/
def c2xCfg : LegacyConfig := ⟨true, 85/100, 9/10, 75/100, false, true⟩

/-- Legacy environment where the local attempt succeeds at confidence 0.5
(below threshold, so the remote fallback is consulted) and the remote
answers at the lower confidence 0.4, so its result is not adopted. -/
def c2xEnv : LegacyEnv :=
  ⟨1, .ok (true, 1), .ok ("hello", [1/2], "en"), some ⟨"world", 2/5, none, 1, "en"⟩,
   none, 0⟩

/-- Openai-first configuration with a working OpenAI client. -/
def c3xCfg : ControllerConfig := ⟨⟨true, true, true, true⟩, "openai", false⟩

/-- Environment where verification cleanly reports an unauthorized speaker
(score 0.3) while the OpenAI provider would succeed if called. -/
def c3xEnv : ControllerEnv :=
  ⟨.ok 1, .ok (false, 3/10), ⟨.ok "hello there", .ok ("hi", [9/10], "en")⟩,
   ⟨.error "unused", .error "unused"⟩, fun _ => ⟨.error "unused", .error "unused"⟩,
   fun _ => ⟨0, 0⟩, .ok 0, fun l => l⟩

/-- Request demanding speaker verification, without debug. -/
def c3xReq : Request := ⟨true, false, 8/10, none, none, false⟩

/-- Small audio for the verification scenarios. -/
def c3xAudio : Audio := ⟨100, 1000⟩

/-- Provider configuration with a working OpenAI client, for the
provider-level redaction witness. -/
def c3wPcfg : ProviderConfig := ⟨true, true, true, true⟩

/-- Call-site responses where the OpenAI call succeeds. -/
def c3wCall : ProviderCallResults := ⟨.ok "hello there", .ok ("hi", [1], "en")⟩

/-- A candidate result for the legacy-arbitration witness (confidence 0). -/
def c4wR2 : LegacyOutcome := ⟨"local", "hi there", 0, none, 1, "en", false, none, true⟩

/-- A remote result for the legacy-arbitration witness (confidence 1). -/
def c4wRemote : RemoteResult := ⟨"hi there friend", 1, none, 1, "ru"⟩

/-- Legacy configuration: semantics on, default thresholds, working model,
remote URL set. -/
def c5xCfg : LegacyConfig := ⟨true, 85/100, 9/10, 75/100, true, true⟩

/-- Legacy environment reaching the semantic branch with raw similarity 0.9:
local confidence 0.5 triggers fallback, remote answers at confidence 0.6. -/
def c5xEnv : LegacyEnv :=
  ⟨1, .ok (true, 1), .ok ("hello", [1/2], "en"), some ⟨"world", 6/10, none, 1, "en"⟩,
   none, 9/10⟩

/-- Legacy configuration for the determinism witness. -/
def c9wCfg : LegacyConfig := ⟨true, 85/100, 9/10, 75/100, false, true⟩

/-- Legacy environment for the determinism witness: a below-threshold local
result and a higher-confidence remote answer, so the fallback is exercised. -/
def c9wEnv : LegacyEnv :=
  ⟨1, .ok (true, 1), .ok ("hello", [1/2], "en"), some ⟨"world", 1, none, 1, "en"⟩,
   none, 0⟩

/-- Provider configuration for the chunked-aggregation determinism witness. -/
def c9wPcfg : ProviderConfig := ⟨true, true, true, true⟩

/-- Per-chunk call-site responses: chunk 0 detects `"en"`, later chunks
detect `"ru"`. -/
def c9wCalls : ℕ → ProviderCallResults :=
  fun i => ⟨.ok (if i = 0 then "first chunk" else "second chunk"),
    .ok ("loc", [1], if i = 0 then "en" else "ru")⟩

/-- Per-chunk audio files for the determinism witness. -/
def c9wAudios : ℕ → Audio := fun _ => ⟨1000, 1000⟩

/-- Identity set-enumeration order for the determinism witness. -/
def c9wOrd : List String → List String := fun l => l

/-- A 30 MiB, 10-second audio file: takes the chunked path of
`transcribe_large_audio`. -/
def c9wAudio : Audio := ⟨30 * 1024 * 1024, 10000⟩

/-- Provider configuration for the local-error witness: OpenAI client absent,
local fallback on, whisper model initialized. -/
def c10wCfg : ProviderConfig := ⟨false, true, true, true⟩

/-- Call-site responses where the local inference raises internally. -/
def c10wCall : ProviderCallResults := ⟨.error "no client", .error "cuda out of memory"⟩

/-- Small audio for the local-error witness. -/
def c10wAudio : Audio := ⟨100, 1000⟩

/-! ## Helper lemmas -/

theorem foldl_erase_self (l : List ℕ) : l.foldl (fun fls i => fls.erase i) l = [] := by
  induction l with
  | nil => rfl
  | cons a t ih =>
    show List.foldl _ ((a :: t).erase a) t = []
    rw [List.erase_cons_head]
    exact ih

theorem chunkSlices_length (total step : ℕ) :
    (chunkSlices total step).length = (total + step - 1) / step := by
  simp [chunkSlices, chunkStarts]

theorem chunkSlices_get (total step i : ℕ) (h : i < (chunkSlices total step).length) :
    (chunkSlices total step).get ⟨i, h⟩ = (i * step, min (i * step + step) total) := by
  simp [chunkSlices, chunkStarts, List.get_eq_getElem]

theorem ceil_chunks_pos (total step : ℕ) (htot : 0 < total) (hstep : 0 < step) :
    0 < (total + step - 1) / step := by
  apply Nat.div_pos <;> omega

theorem ceil_mul_ge (total step : ℕ) (hstep : 0 < step) :
    total ≤ ((total + step - 1) / step) * step := by
  have hd := Nat.div_add_mod (total + step - 1) step
  have hr : (total + step - 1) % step < step := Nat.mod_lt _ hstep
  rw [Nat.mul_comm]
  omega

theorem mul_step_lt_total (total step i : ℕ) (hstep : 0 < step)
    (h : i < (total + step - 1) / step) : i * step < total := by
  have hd := Nat.div_add_mod (total + step - 1) step
  have hr : (total + step - 1) % step < step := Nat.mod_lt _ hstep
  have h2 : (i + 1) * step ≤ ((total + step - 1) / step) * step :=
    mul_le_mul_right' h step
  rw [Nat.add_mul, one_mul] at h2
  rw [Nat.mul_comm step ((total + step - 1) / step)] at hd
  omega

theorem head_eq_get_zero {α : Type} (l : List α) (h : l ≠ []) :
    l.head h = l.get ⟨0, List.length_pos.mpr h⟩ := by
  cases l with
  | nil => exact absurd rfl h
  | cons a t => rfl

/-! ## Claim theorems -/

/-- Claim C7: when audio size exceeds the single-shot ceiling, the chunk
planner computes the nominal chunk duration as
`total_duration * (max_single_shot_bytes / total_size)` (in integer
milliseconds, `int()`-floored as in the source) and produces consecutive,
non-overlapping time slices covering the full duration from 0, each slice
non-empty, every non-final slice of exactly the nominal duration and every
slice of at most the nominal duration. -/
theorem C7_chunk_plan_properties (chunkBytes size total step : ℕ)
    (hsplit : chunkBytes < size)
    (hstepdef : step = chunk_duration_ms chunkBytes size total)
    (htot : 0 < total) (hstep : 0 < step) :
    step = chunkBytes * total / size ∧
    chunk_large_audio chunkBytes ⟨size, total⟩ = some (chunkSlices total step) ∧
    chunkSlices total step ≠ [] ∧
    (∀ h : chunkSlices total step ≠ [],
      ((chunkSlices total step).head h).1 = 0 ∧
      ((chunkSlices total step).getLast h).2 = total) ∧
    (∀ i (h : i + 1 < (chunkSlices total step).length),
      ((chunkSlices total step).get ⟨i, Nat.lt_of_succ_lt h⟩).2 =
        ((chunkSlices total step).get ⟨i + 1, h⟩).1) ∧
    (∀ i (h : i + 1 < (chunkSlices total step).length),
      ((chunkSlices total step).get ⟨i, Nat.lt_of_succ_lt h⟩).2 -
        ((chunkSlices total step).get ⟨i, Nat.lt_of_succ_lt h⟩).1 = step) ∧
    (∀ i (h : i < (chunkSlices total step).length),
      ((chunkSlices total step).get ⟨i, h⟩).1 <
        ((chunkSlices total step).get ⟨i, h⟩).2 ∧
      ((chunkSlices total step).get ⟨i, h⟩).2 -
        ((chunkSlices total step).get ⟨i, h⟩).1 ≤ step) := by
  have hq : 0 < (total + step - 1) / step := ceil_chunks_pos total step htot hstep
  have hlen : (chunkSlices total step).length = (total + step - 1) / step :=
    chunkSlices_length total step
  have hne : chunkSlices total step ≠ [] := by
    apply List.length_pos.mp
    omega
  refine ⟨by rw [hstepdef]; rfl, ?_, hne, ?_, ?_, ?_, ?_⟩
  · unfold chunk_large_audio
    rw [hstepdef]
    simp only [Audio.sizeBytes]
    rw [if_neg (by omega)]
  · intro h
    constructor
    · rw [head_eq_get_zero _ h, chunkSlices_get]
      simp
    · have hlast : (chunkSlices total step).getLast h =
          (chunkSlices total step).get
            ⟨(chunkSlices total step).length - 1, by omega⟩ :=
        List.getLast_eq_get _ h
      rw [hlast, chunkSlices_get]
      have hqs : total ≤ ((total + step - 1) / step) * step :=
        ceil_mul_ge total step hstep
      have hsucc : ((total + step - 1) / step - 1) * step + step =
          ((total + step - 1) / step) * step := by
        have : (total + step - 1) / step - 1 + 1 = (total + step - 1) / step := by omega
        calc ((total + step - 1) / step - 1) * step + step
            = ((total + step - 1) / step - 1 + 1) * step := by rw [Nat.add_mul, one_mul]
          _ = ((total + step - 1) / step) * step := by rw [this]
      simp only [hlen]
      rw [hsucc]
      exact min_eq_right hqs
  · intro i h
    rw [chunkSlices_get, chunkSlices_get]
    have hi1 : (i + 1) * step < total := by
      apply mul_step_lt_total total step (i + 1) hstep
      omega
    have : i * step + step = (i + 1) * step := by rw [Nat.add_mul, one_mul]
    rw [this]
    simp [min_eq_left (Nat.le_of_lt hi1)]
  · intro i h
    rw [chunkSlices_get]
    have hi1 : (i + 1) * step < total := by
      apply mul_step_lt_total total step (i + 1) hstep
      omega
    have he : i * step + step = (i + 1) * step := by rw [Nat.add_mul, one_mul]
    have hle : i * step + step ≤ total := by
      rw [he]
      exact Nat.le_of_lt hi1
    simp [min_eq_left hle]
  · intro i h
    rw [chunkSlices_get]
    have hi : i * step < total := by
      apply mul_step_lt_total total step i hstep
      omega
    constructor
    · simp only []
      apply lt_min
      · omega
      · exact hi
    · have := min_le_left (i * step + step) total
      simp only []
      omega

/-- Witness for C7 at `chunkBytes = 2`, `size = 5`, `total = 10 ms`:
the nominal step is 4 ms and the plan is `[(0,4), (4,8), (8,10)]`. -/
theorem C7_chunk_plan_properties_witness :
    chunk_large_audio 2 ⟨5, 10⟩ = some (chunkSlices 10 4) ∧ chunkSlices 10 4 ≠ [] :=
  ⟨(C7_chunk_plan_properties 2 5 10 4 (by decide) (by decide) (by decide) (by decide)).2.1,
   (C7_chunk_plan_properties 2 5 10 4 (by decide) (by decide) (by decide) (by decide)).2.2.1⟩

/-- Claim C8: on every exit path of the chunked branch of
`transcribe_large_audio` — success, partial failure (a chunk result carrying
a failure payload is an ordinary `ok` result), or an exception raised while
transcribing any chunk — the `finally` block releases every temporary chunk
file and the chunk directory: chunk storage is never leaked. -/
theorem C8_chunk_storage_released
    (oracle : ℕ → Except String (String × ℚ × String)) (n : ℕ) :
    (transcribe_large_audio_fs oracle n).2.files = [] ∧
    (transcribe_large_audio_fs oracle n).2.dirExists = false := by
  unfold transcribe_large_audio_fs chunk_cleanup
  simp [foldl_erase_self]

/-- Claim C9: the engine is deterministic. The reachable engine
(`controller.process_audio_hybrid`) and the chunked transcription with its
language aggregation (`transcribe_large_audio`) are pure functions of the
request and of the explicit environment of collaborator responses — provider
results, verification, embeddings, and the per-process `set` enumeration
order that decides language tie-breaks — so two calls with identical
requests and identical (deterministic, mocked) responses produce identical
outcomes, including the aggregated language field of a chunked job. The
content of the theorem is that the embeddings put every source of
nondeterminism into those arguments: nothing else feeds the result. -/
theorem C9_engine_deterministic :
    (∀ (cfg cfg2 : LegacyConfig) (env env2 : LegacyEnv) (vf vf2 rd rd2 : Bool),
      cfg = cfg2 → env = env2 → vf = vf2 → rd = rd2 →
      process_audio_hybrid_legacy cfg env vf rd =
        process_audio_hybrid_legacy cfg2 env2 vf2 rd2) ∧
    (∀ (pcfg pcfg2 : ProviderConfig) (calls calls2 : ℕ → ProviderCallResults)
       (audios audios2 : ℕ → Audio) (ord ord2 : List String → List String)
       (audio audio2 : Audio) (detailed detailed2 : Bool)
       (language language2 prompt prompt2 : Option String),
      pcfg = pcfg2 → calls = calls2 → audios = audios2 → ord = ord2 →
      audio = audio2 → detailed = detailed2 → language = language2 →
      prompt = prompt2 →
      transcribe_large_audio pcfg calls audios ord audio detailed language prompt =
        transcribe_large_audio pcfg2 calls2 audios2 ord2 audio2 detailed2
          language2 prompt2) := by
  constructor
  · intro cfg cfg2 env env2 vf vf2 rd rd2 h1 h2 h3 h4
    rw [h1, h2, h3, h4]
  · intro pcfg pcfg2 calls calls2 audios audios2 ord ord2 audio audio2
      detailed detailed2 language language2 prompt prompt2 h1 h2 h3 h4 h5 h6 h7 h8
    rw [h1, h2, h3, h4, h5, h6, h7, h8]

/-- Witness for C9: a fallback-exercising legacy request and a chunked
30 MiB `transcribe_large_audio` job, each run twice against the same
environment. -/
theorem C9_engine_deterministic_witness :
    process_audio_hybrid_legacy c9wCfg c9wEnv false false =
      process_audio_hybrid_legacy c9wCfg c9wEnv false false ∧
    transcribe_large_audio c9wPcfg c9wCalls c9wAudios c9wOrd c9wAudio
        true none none =
      transcribe_large_audio c9wPcfg c9wCalls c9wAudios c9wOrd c9wAudio
        true none none :=
  ⟨C9_engine_deterministic.1 c9wCfg c9wCfg c9wEnv c9wEnv false false
      false false rfl rfl rfl rfl,
   C9_engine_deterministic.2 c9wPcfg c9wPcfg c9wCalls c9wCalls c9wAudios
      c9wAudios c9wOrd c9wOrd c9wAudio c9wAudio true true none none none none
      rfl rfl rfl rfl rfl rfl rfl rfl⟩

theorem hybrid_local_step_source (cfg : ProviderConfig)
    (call : ProviderCallResults) (detailed : Bool)
    (hmodel : cfg.whisperModelInitialized = true)
    (hfb : cfg.fallbackToLocal = true) (errs att : List String) :
    (hybrid_local_step cfg call detailed errs att).source = "local" := by
  unfold hybrid_local_step transcribe_audio
  rw [hfb, hmodel]
  rcases call.localResult with e | ⟨raw, segs, lang⟩
  · simp
  · cases detailed <;> simp

/-- Claim C10: when the local whisper model initialized and local fallback is
enabled, the `"failed"` origin tag is unreachable in
`transcribe_audio_hybrid`: `speech_recognition.transcribe_audio` converts
every internal exception into the normal return
`("Error during transcription", 0.0, "unknown")` instead of raising, so a
failing local attempt yields an ordinary candidate with origin `"local"` and
confidence 0. -/
theorem C10_local_failure_reported_as_local (cfg : ProviderConfig)
    (call : ProviderCallResults) (audio : Audio) (detailed : Bool)
    (language prompt : Option String) (useFirst : Bool)
    (hmodel : cfg.whisperModelInitialized = true)
    (hfb : cfg.fallbackToLocal = true) :
    (transcribe_audio_hybrid cfg call audio detailed language prompt
        useFirst).source ≠ "failed" ∧
    (∀ errs att e, call.localResult = .error e →
      hybrid_local_step cfg call detailed errs att =
        ⟨"Error during transcription", 0, "unknown", "local", att ++ ["local"]⟩) := by
  constructor
  · unfold transcribe_audio_hybrid
    split
    · rcases hw : transcribe_with_openai cfg call.openaiResult audio language
        with e | ⟨t, c, l⟩
      · simp [hybrid_local_step_source cfg call detailed hmodel hfb]
      · cases detailed <;> simp
    · simp [hybrid_local_step_source cfg call detailed hmodel hfb]
  · intro errs att e he
    unfold hybrid_local_step transcribe_audio
    rw [hfb, hmodel, he]
    simp

/-- Witness for C10: OpenAI unavailable, local inference raises internally —
the result is an ordinary `"local"` candidate with confidence 0. -/
theorem C10_local_failure_reported_as_local_witness :
    (transcribe_audio_hybrid c10wCfg c10wCall c10wAudio true none none true).source ≠ "failed" ∧
    hybrid_local_step c10wCfg c10wCall true [] [] =
      ⟨"Error during transcription", 0, "unknown", "local", [] ++ ["local"]⟩ :=
  ⟨(C10_local_failure_reported_as_local c10wCfg c10wCall c10wAudio true none none true rfl rfl).1,
   (C10_local_failure_reported_as_local c10wCfg c10wCall c10wAudio true none none true rfl rfl).2
     [] [] "cuda out of memory" rfl⟩

theorem hybrid_local_step_failed_conf (cfg : ProviderConfig)
    (call : ProviderCallResults) (detailed : Bool) (errs att : List String) :
    (hybrid_local_step cfg call detailed errs att).source = "failed" →
    (hybrid_local_step cfg call detailed errs att).confidence = 0 := by
  unfold hybrid_local_step
  split
  · split <;> simp
  · simp

theorem hybrid_failed_conf (cfg : ProviderConfig) (call : ProviderCallResults)
    (audio : Audio) (detailed : Bool) (language prompt : Option String)
    (useFirst : Bool) :
    (transcribe_audio_hybrid cfg call audio detailed language prompt
        useFirst).source = "failed" →
    (transcribe_audio_hybrid cfg call audio detailed language prompt
        useFirst).confidence = 0 := by
  unfold transcribe_audio_hybrid
  split
  · split
    · split <;> simp
    · exact hybrid_local_step_failed_conf cfg call detailed _ _
  · exact hybrid_local_step_failed_conf cfg call detailed _ _

theorem new_controller_error_shape (cfg : ControllerConfig)
    (env : ControllerEnv) (req : Request) (audio : Audio) :
    (process_audio_hybrid_new cfg env req audio).source = "error" ∧
    (process_audio_hybrid_new cfg env req audio).confidence = 0 ∧
    (process_audio_hybrid_new cfg env req audio).fallbackUsed = false ∧
    (process_audio_hybrid_new cfg env req audio).attempts = [] := by
  unfold process_audio_hybrid_new metadata_duration_step
  rcases env.metadataDuration with e | d <;> simp

/-- Claim C1 counterexample: in the legacy controller, with both provider
attempts failing (the local model raises, the remote retry of the error
handler yields nothing), the outcome's origin tag is `"local"` — never
`"failed"` — although the confidence is 0 and a second (remote) attempt was
issued and failed. -/
theorem C1_claim_counterexample :
    (process_audio_hybrid_legacy c1xCfg c1xEnv false false).remoteAttempted = true ∧
    (process_audio_hybrid_legacy c1xCfg c1xEnv false false).confidence = 0 ∧
    (process_audio_hybrid_legacy c1xCfg c1xEnv false false).source = "local" ∧
    (process_audio_hybrid_legacy c1xCfg c1xEnv false false).source ≠ "failed" := by
  decide

/-- Claim C1 (amended): both controller variants are total — they always
return exactly one outcome and never let a provider or collaborator
exception propagate (every oracle failure is handled inside the
definitions). But the `"failed"` origin tag never reaches a controller
outcome: when every provider attempt fails, the legacy controller reports
origin `"local"` with text `"Error processing audio"` and confidence 0,
while the openai-first controller short-circuits every request — before any
provider attempt — to origin `"error"` with confidence 0 at its broken
metadata access. The failed-origin-with-confidence-0 behaviour exists only
at the provider level: an all-failed `transcribe_audio_hybrid` result with
origin `"failed"` always carries confidence 0. -/
theorem C1_amended_failure_outcomes :
    (∀ (cfg : ControllerConfig) (env : ControllerEnv) (req : Request)
       (audio : Audio),
      (process_audio_hybrid_new cfg env req audio).source = "error" ∧
      (process_audio_hybrid_new cfg env req audio).confidence = 0 ∧
      (process_audio_hybrid_new cfg env req audio).attempts = []) ∧
    (∀ (cfg : LegacyConfig) (env : LegacyEnv) (rd : Bool),
      cfg.whisperModelInitialized = false →
      cfg.remoteApiUrl = true →
      env.remoteResult2 = none →
      (process_audio_hybrid_legacy cfg env false rd).source = "local" ∧
      (process_audio_hybrid_legacy cfg env false rd).text = "Error processing audio" ∧
      (process_audio_hybrid_legacy cfg env false rd).confidence = 0 ∧
      (process_audio_hybrid_legacy cfg env false rd).remoteAttempted = true) ∧
    (∀ (pcfg : ProviderConfig) (call : ProviderCallResults) (audio : Audio)
       (detailed : Bool) (language prompt : Option String) (useFirst : Bool),
      (transcribe_audio_hybrid pcfg call audio detailed language prompt
          useFirst).source = "failed" →
      (transcribe_audio_hybrid pcfg call audio detailed language prompt
          useFirst).confidence = 0) := by
  refine ⟨?_, ?_, ?_⟩
  · intro cfg env req audio
    exact ⟨(new_controller_error_shape cfg env req audio).1,
      (new_controller_error_shape cfg env req audio).2.1,
      (new_controller_error_shape cfg env req audio).2.2.2⟩
  · intro cfg env rd hmodel hurl hr2
    unfold process_audio_hybrid_legacy legacy_transcribe_and_fallback
      transcribe_audio legacy_error_handler
    rw [hmodel, hurl, hr2]
    simp
  · intro pcfg call audio detailed language prompt useFirst
    exact hybrid_failed_conf pcfg call audio detailed language prompt useFirst

/-- Witness for the amended C1: the legacy all-attempts-fail run, and a
provider-level all-failed result carrying origin `"failed"` with
confidence 0. -/
theorem C1_amended_failure_outcomes_witness :
    (process_audio_hybrid_legacy c1xCfg c1xEnv false true).text = "Error processing audio" ∧
    (transcribe_audio_hybrid c1wPcfg c1wCall c1wAudio true none none true).confidence = 0 :=
  ⟨(C1_amended_failure_outcomes.2.1 c1xCfg c1xEnv true rfl rfl rfl).2.1,
   C1_amended_failure_outcomes.2.2 c1wPcfg c1wCall c1wAudio true none none true
     (by decide)⟩

/-- Claim C2 counterexample: in the legacy controller, the local confidence
0.5 is below the 0.85 threshold, so the router issues a second (remote)
attempt; the remote answer has the lower confidence 0.4 and is not adopted,
and the outcome reports `fallback_used = false` although a second provider
attempt was actually issued — refuting the claimed equivalence. -/
theorem C2_claim_counterexample :
    (process_audio_hybrid_legacy c2xCfg c2xEnv false false).remoteAttempted = true ∧
    (process_audio_hybrid_legacy c2xCfg c2xEnv false false).fallbackUsed = false := by
  constructor <;>
    norm_num [process_audio_hybrid_legacy, legacy_transcribe_and_fallback,
      transcribe_audio, legacy_error_handler, legacy_arbitrate,
      calculate_semantic_similarity, remote_outcome, c2xCfg, c2xEnv]

theorem legacy_handler_fallback_inv (cfg : LegacyConfig) (env : LegacyEnv)
    (r : LegacyOutcome) (hs : r.source = "local") (hf : r.fallbackUsed = false) :
    (legacy_error_handler cfg env r).fallbackUsed =
      ((legacy_error_handler cfg env r).source == "remote") := by
  unfold legacy_error_handler remote_outcome
  split
  · split <;> simp [hs, hf]
  · simp [hs, hf]

theorem legacy_arbitrate_fallback_inv (so : Bool) (sim thr : ℚ)
    (r2 : LegacyOutcome) (remote : RemoteResult)
    (hs : r2.source = "local") (hf : r2.fallbackUsed = false) :
    (legacy_arbitrate so sim thr r2 remote).fallbackUsed =
      ((legacy_arbitrate so sim thr r2 remote).source == "remote") := by
  by_cases hg : so = true ∧ r2.text ≠ "" ∧ remote.text ≠ ""
  · obtain ⟨hso, h1, h2⟩ := hg
    subst hso
    by_cases hc : r2.confidence < remote.confidence
    · by_cases ho : thr ≤ calculate_semantic_similarity true sim ∧
          (7 : ℚ)/10 ≤ r2.confidence
      · simp [legacy_arbitrate, remote_outcome, h1, h2, hc, ho, hs, hf]
      · simp [legacy_arbitrate, remote_outcome, h1, h2, hc, ho, hs, hf]
    · simp [legacy_arbitrate, remote_outcome, h1, h2, hc, hs, hf]
  · by_cases hc : r2.confidence < remote.confidence
    · simp [legacy_arbitrate, remote_outcome, hg, hc, hs, hf]
    · simp [legacy_arbitrate, remote_outcome, hg, hc, hs, hf]

theorem legacy_tf_fallback_inv (cfg : LegacyConfig) (env : LegacyEnv)
    (vf : Bool) (r1 : LegacyOutcome) (m : ℚ)
    (hs : r1.source = "local") (hf : r1.fallbackUsed = false) :
    (legacy_transcribe_and_fallback cfg env vf r1 m).fallbackUsed =
      ((legacy_transcribe_and_fallback cfg env vf r1 m).source == "remote") := by
  unfold legacy_transcribe_and_fallback
  rcases ht : transcribe_audio cfg.whisperModelInitialized env.localResult true
    with e | ⟨text, conf, lang⟩
  · exact legacy_handler_fallback_inv cfg env r1 hs hf
  · by_cases hu : (conf < cfg.minConfidence ∨ vf = true ∧ m < cfg.minSpeakerMatch) ∧
        cfg.remoteApiUrl = true
    · rcases hr : env.remoteResult with _ | remote
      · simp [hu, hs, hf]
      · have h := legacy_arbitrate_fallback_inv cfg.semanticValidation
          env.similarity cfg.semanticThreshold
          {r1 with text := text, confidence := conf, language := lang} remote
          (by simp [hs]) (by simp [hf])
        simpa [hu] using h
    · simp [hu, hs, hf]

/-- Claim C2 (amended): in the legacy controller, `fallback_used` is true if
and only if the final source is `"remote"`, that is, iff the remote second
attempt's result was adopted as the final result — a second attempt whose
result is not adopted (or which fails) leaves `fallback_used` false; in the
openai-first controller no request ever issues a provider attempt and
`fallback_used` is always false. -/
theorem C2_fallback_flag_iff_remote_adopted :
    (∀ (cfg : LegacyConfig) (env : LegacyEnv) (vf rd : Bool),
      (process_audio_hybrid_legacy cfg env vf rd).fallbackUsed =
        ((process_audio_hybrid_legacy cfg env vf rd).source == "remote")) ∧
    (∀ (cfg : ControllerConfig) (env : ControllerEnv) (req : Request)
       (audio : Audio),
      (process_audio_hybrid_new cfg env req audio).fallbackUsed = false ∧
      (process_audio_hybrid_new cfg env req audio).attempts = []) := by
  constructor
  · intro cfg env vf rd
    unfold process_audio_hybrid_legacy
    split
    · split
      · exact legacy_handler_fallback_inv cfg env _ rfl rfl
      · exact legacy_tf_fallback_inv cfg env _ _ _ rfl rfl
    · exact legacy_tf_fallback_inv cfg env _ _ _ rfl rfl
  · intro cfg env req audio
    exact ⟨(new_controller_error_shape cfg env req audio).2.2.1,
      (new_controller_error_shape cfg env req audio).2.2.2⟩

/-- Claim C3 counterexample: verification is required, the verification
collaborator cleanly reports an unauthorized speaker, and the OpenAI
provider would succeed if called — yet the controller errors at the metadata
access before the verification gate: the provider is never called
(`attempts = []`) and the outcome carries source `"error"` (with the
`AttributeError` text), not `"verification_failed"` with the placeholder. -/
theorem C3_claim_counterexample :
    (process_audio_hybrid_new c3xCfg c3xEnv c3xReq c3xAudio).attempts = [] ∧
    (process_audio_hybrid_new c3xCfg c3xEnv c3xReq c3xAudio).source = "error" ∧
    (process_audio_hybrid_new c3xCfg c3xEnv c3xReq c3xAudio).text =
      "Processing error: 'tuple' object has no attribute 'get'" ∧
    (process_audio_hybrid_new c3xCfg c3xEnv c3xReq c3xAudio).source ≠
      "verification_failed" := by
  decide

/-- Claim C3 (amended): in the openai-first controller no request — in
particular no verification-required request — reaches the verification gate
or any provider call: the broken metadata access raises first and every
outcome is source `"error"` with confidence 0 and no provider attempt, so
`"verification_failed"` is never produced. The claimed redaction semantics
live at the provider layer: `transcribe_audio_hybrid` invoked with the
unauthorized flag (`detailed = false`) still performs the real OpenAI call
and, after it completes successfully, returns the candidate with its text
replaced by the fixed notice string and its confidence capped at 0.5, under
the provider's own `"openai"` source tag. -/
theorem C3_amended_verification_gate :
    (∀ (cfg : ControllerConfig) (env : ControllerEnv) (req : Request)
       (audio : Audio),
      req.verifySpeakerFlag = true →
      (process_audio_hybrid_new cfg env req audio).source = "error" ∧
      (process_audio_hybrid_new cfg env req audio).source ≠ "verification_failed" ∧
      (process_audio_hybrid_new cfg env req audio).confidence = 0 ∧
      (process_audio_hybrid_new cfg env req audio).attempts = []) ∧
    (∀ (pcfg : ProviderConfig) (call : ProviderCallResults) (audio : Audio)
       (language prompt : Option String) (t : String),
      pcfg.openaiClient = true →
      audio.sizeBytes ≤ MAX_FILE_SIZE →
      call.openaiResult = .ok t →
      (transcribe_audio_hybrid pcfg call audio false language prompt true).text =
        "Voice authentication required for full transcription" ∧
      (transcribe_audio_hybrid pcfg call audio false language prompt true).confidence ≤ 1/2 ∧
      (transcribe_audio_hybrid pcfg call audio false language prompt true).source = "openai" ∧
      (transcribe_audio_hybrid pcfg call audio false language prompt true).attempts = ["openai"]) := by
  constructor
  · intro cfg env req audio _hflag
    exact ⟨(new_controller_error_shape cfg env req audio).1,
      by rw [(new_controller_error_shape cfg env req audio).1]; decide,
      (new_controller_error_shape cfg env req audio).2.1,
      (new_controller_error_shape cfg env req audio).2.2.2⟩
  · intro pcfg call audio language prompt t hclient hsize hok
    unfold transcribe_audio_hybrid transcribe_with_openai
    rw [hclient, hok]
    simp [Nat.not_lt.mpr hsize, min_le_right]

/-- Witness for the amended C3: a verification-required request that ends in
the `"error"` outcome, and a provider-level unauthorized call that returns
the redacted notice. -/
theorem C3_amended_verification_gate_witness :
    (process_audio_hybrid_new c3xCfg c3xEnv c3xReq c3xAudio).confidence = 0 ∧
    (transcribe_audio_hybrid c3wPcfg c3wCall c3xAudio false none none true).text =
      "Voice authentication required for full transcription" :=
  ⟨(C3_amended_verification_gate.1 c3xCfg c3xEnv c3xReq c3xAudio rfl).2.2.1,
   (C3_amended_verification_gate.2 c3wPcfg c3wCall c3xAudio none none
      "hello there" rfl (by decide) rfl).1⟩

/-- Claim C4: the decision rule of semantic arbitration, as implemented by
the program's only reachable semantic arbitration (lines 122–146 of the
legacy controller; the openai-first controller's deviating semantic block
sits behind the broken metadata access and is dead code). With two
non-empty candidates: if the secondary (remote) candidate's confidence is
not strictly greater than the primary (local) one's, the primary wins; if
it is strictly greater, the primary still wins exactly when
`similarity >= semantic_threshold` and `primary.confidence >= 0.7`, and
otherwise the secondary wins. -/
theorem C4_semantic_arbitration_rule (sim thr : ℚ) (r2 : LegacyOutcome)
    (remote : RemoteResult) (h1 : r2.text ≠ "") (h2 : remote.text ≠ "") :
    (¬ r2.confidence < remote.confidence →
      legacy_arbitrate true sim thr r2 remote =
        {r2 with semanticDiff := some sim, fallbackUsed := false}) ∧
    (r2.confidence < remote.confidence → thr ≤ sim →
      (7 : ℚ)/10 ≤ r2.confidence →
      legacy_arbitrate true sim thr r2 remote =
        {r2 with semanticDiff := some sim, fallbackUsed := false}) ∧
    (r2.confidence < remote.confidence →
      ¬ (thr ≤ sim ∧ (7 : ℚ)/10 ≤ r2.confidence) →
      legacy_arbitrate true sim thr r2 remote =
        {remote_outcome remote with fallbackUsed := true, semanticDiff := some sim, remoteAttempted := r2.remoteAttempted}) := by
  refine ⟨fun hc => ?_, fun hc hthr hcf => ?_, fun hc hn => ?_⟩ <;>
    simp only [legacy_arbitrate, calculate_semantic_similarity, if_true] <;>
    rw [if_pos ⟨trivial, h1, h2⟩]
  · rw [if_neg hc]
  · rw [if_pos hc, if_pos ⟨hthr, hcf⟩]
  · rw [if_pos hc, if_neg hn]

/-- Witness for C4: the primary (confidence 1) beats a less confident
secondary outright, and a strictly more confident secondary (1 over 0) wins
when the similarity 0 misses the threshold 1. -/
theorem C4_semantic_arbitration_rule_witness :
    legacy_arbitrate true 0 1 ⟨"local", "hi there", 1, none, 1, "en", false, none, true⟩
        ⟨"hi there friend", 0, none, 1, "ru"⟩ =
      {(⟨"local", "hi there", 1, none, 1, "en", false, none, true⟩ : LegacyOutcome) with
        semanticDiff := some 0, fallbackUsed := false} ∧
    legacy_arbitrate true 0 1 c4wR2 c4wRemote =
      {remote_outcome c4wRemote with fallbackUsed := true, semanticDiff := some 0, remoteAttempted := true} :=
  ⟨(C4_semantic_arbitration_rule 0 1
      ⟨"local", "hi there", 1, none, 1, "en", false, none, true⟩
      ⟨"hi there friend", 0, none, 1, "ru"⟩ (by decide) (by decide)).1 (by decide),
   (C4_semantic_arbitration_rule 0 1 c4wR2 c4wRemote
      (by decide) (by decide)).2.2 (by decide) (by decide)⟩

/-- Claim C5 counterexample: the legacy controller stores the raw cosine
similarity (here 0.9) in `semantic_diff`, not the distance `1 - 0.9`. -/
theorem C5_claim_counterexample :
    c5xEnv.similarity = 9/10 ∧
    (process_audio_hybrid_legacy c5xCfg c5xEnv false false).semanticDiff = some (9/10) ∧
    some ((9 : ℚ)/10) ≠ some (1 - (9 : ℚ)/10) := by
  refine ⟨rfl, ?_, ?_⟩ <;>
    (norm_num [process_audio_hybrid_legacy, legacy_transcribe_and_fallback,
      transcribe_audio, legacy_error_handler, legacy_arbitrate,
      calculate_semantic_similarity, remote_outcome, c5xCfg, c5xEnv];
     try simp)

/-- Claim C5 (amended): whenever the program's reachable semantic
arbitration (the legacy controller's) computes a cosine similarity `s`
between two non-empty candidate texts, the `semantic_diff` field reported in
the outcome is the raw similarity `s` itself, not the distance `1 - s`; the
`1 - similarity` computation appears only in the openai-first controller's
semantic block, which is dead code behind the broken metadata access. -/
theorem C5_semantic_diff_reporting (sim thr : ℚ) (r2 : LegacyOutcome)
    (remote : RemoteResult) (h1 : r2.text ≠ "") (h2 : remote.text ≠ "") :
    (legacy_arbitrate true sim thr r2 remote).semanticDiff = some sim := by
  simp only [legacy_arbitrate, calculate_semantic_similarity, if_true]
  rw [if_pos ⟨trivial, h1, h2⟩]
  split
  · split <;> rfl
  · rfl

/-- Witness for the amended C5: the legacy arbitration stores the raw
similarity 2 in `semantic_diff`. -/
theorem C5_semantic_diff_reporting_witness :
    (legacy_arbitrate true 2 3
        ⟨"local", "aa", 1, none, 1, "en", false, none, false⟩
        ⟨"bb", 0, none, 1, "en"⟩).semanticDiff = some 2 :=
  C5_semantic_diff_reporting 2 3
    ⟨"local", "aa", 1, none, 1, "en", false, none, false⟩
    ⟨"bb", 0, none, 1, "en"⟩ (by decide) (by decide)

theorem foldl_max_mem_or (key : String → ℕ) (t : List String) (acc : String) :
    t.foldl (fun best x => if key best < key x then x else best) acc = acc ∨
    t.foldl (fun best x => if key best < key x then x else best) acc ∈ t := by
  induction t generalizing acc with
  | nil => left; rfl
  | cons a t ih =>
    simp only [List.foldl_cons]
    rcases ih (if key acc < key a then a else acc) with h | h
    · rw [h]
      by_cases hk : key acc < key a
      · right
        simp [hk]
      · left
        simp [hk]
    · right
      exact List.mem_cons_of_mem a h

theorem foldl_max_ge (key : String → ℕ) (t : List String) (acc : String) :
    key acc ≤ key (t.foldl (fun best x => if key best < key x then x else best) acc) := by
  induction t generalizing acc with
  | nil => simp
  | cons a t ih =>
    simp only [List.foldl_cons]
    refine le_trans ?_ (ih (if key acc < key a then a else acc))
    by_cases hk : key acc < key a
    · simp only [if_pos hk]
      omega
    · simp [hk]

theorem foldl_max_ge_mem (key : String → ℕ) (t : List String) (acc : String) :
    ∀ x ∈ t, key x ≤ key (t.foldl (fun best x => if key best < key x then x else best) acc) := by
  induction t generalizing acc with
  | nil => simp
  | cons a t ih =>
    intro x hx
    simp only [List.foldl_cons]
    rcases List.mem_cons.mp hx with rfl | hx
    · have h1 : key x ≤ key (if key acc < key x then x else acc) := by
        by_cases hk : key acc < key x
        · simp [hk]
        · simp only [if_neg hk]
          omega
      exact le_trans h1 (foldl_max_ge key t _)
    · exact ih _ x hx

theorem pyMaxBy_mem (ord : List String) (key : String → ℕ) (h : ord ≠ []) :
    pyMaxBy ord key ∈ ord := by
  cases ord with
  | nil => exact absurd rfl h
  | cons a t =>
    simp only [pyMaxBy]
    rcases foldl_max_mem_or key t a with h1 | h1
    · rw [h1]
      exact List.mem_cons_self a t
    · exact List.mem_cons_of_mem a h1

theorem pyMaxBy_maximal (ord : List String) (key : String → ℕ) :
    ∀ x ∈ ord, key x ≤ key (pyMaxBy ord key) := by
  cases ord with
  | nil => simp
  | cons a t =>
    intro x hx
    simp only [pyMaxBy]
    rcases List.mem_cons.mp hx with rfl | hx
    · exact foldl_max_ge key t x
    · exact foldl_max_ge_mem key t a x hx

/-- Claim C6 counterexample: with chunk languages `["en", "ru"]` (a tie), the
enumeration order `["ru", "en"]` is an admissible Python `set` order, and
under it the code's aggregation picks `"ru"` while the spec's
first-occurrence tie-break picks `"en"` — so the final language is not always
the most frequent language with ties broken by first occurrence. -/
theorem C6_claim_counterexample :
    IsPySetOrder ["en", "ru"] ["ru", "en"] ∧
    (aggregate_chunks (fun _ => ["ru", "en"]) ["a", "b"] [1/2, 1/2]
        ["en", "ru"]).2.2 = "ru" ∧
    spec_mostFrequentLanguage ["en", "ru"] = "en" ∧
    ("ru" : String) ≠ "en" := by
  decide

/-- Claim C6 (amended): for N ≥ 1 chunks the aggregated text is the
space-joined concatenation of the per-chunk texts in order, the aggregated
confidence is the arithmetic mean of the per-chunk confidences, and the
aggregated language is a language of maximal frequency among the detected
languages — but the tie-break is the Python `set` enumeration order, not
first occurrence. -/
theorem C6_aggregation_properties (ord : List String → List String)
    (ts : List String) (cs : List ℚ) (ls : List String)
    (hls : ls ≠ []) (hord : IsPySetOrder ls (ord ls)) :
    (aggregate_chunks ord ts cs ls).1 = String.intercalate " " ts ∧
    (cs ≠ [] → (aggregate_chunks ord ts cs ls).2.1 = cs.sum / (cs.length : ℚ)) ∧
    (aggregate_chunks ord ts cs ls).2.2 ∈ ls ∧
    (∀ x ∈ ls, ls.count x ≤ ls.count ((aggregate_chunks ord ts cs ls).2.2)) := by
  have hone : ord ls ≠ [] := by
    rcases List.exists_mem_of_ne_nil ls hls with ⟨a, ha⟩
    exact List.ne_nil_of_mem (hord.2.2 a ha)
  have hmem : pyMaxBy (ord ls) (fun x => ls.count x) ∈ ls := by
    have := pyMaxBy_mem (ord ls) (fun x => ls.count x) hone
    exact hord.2.1 _ this
  refine ⟨rfl, ?_, ?_, ?_⟩
  · intro hcs
    simp [aggregate_chunks, hcs]
  · simp [aggregate_chunks, hls, hmem]
  · intro x hx
    have hx2 : x ∈ ord ls := hord.2.2 x hx
    have := pyMaxBy_maximal (ord ls) (fun x => ls.count x) x hx2
    simp only [aggregate_chunks]
    simp [hls]
    exact this

/-- Witness for the amended C6 at two chunks with languages
`["en", "en", "ru"]`. -/
theorem C6_aggregation_properties_witness :
    (aggregate_chunks (fun l => firstOccurrenceDistinct l) ["a", "b", "c"]
        [1/2, 1, 3/4] ["en", "en", "ru"]).1 = String.intercalate " " ["a", "b", "c"] ∧
    (aggregate_chunks (fun l => firstOccurrenceDistinct l) ["a", "b", "c"]
        [1/2, 1, 3/4] ["en", "en", "ru"]).2.2 ∈ ["en", "en", "ru"] :=
  ⟨(C6_aggregation_properties (fun l => firstOccurrenceDistinct l)
      ["a", "b", "c"] [1/2, 1, 3/4] ["en", "en", "ru"] (by decide) (by decide)).1,
   (C6_aggregation_properties (fun l => firstOccurrenceDistinct l)
      ["a", "b", "c"] [1/2, 1, 3/4] ["en", "en", "ru"] (by decide) (by decide)).2.2.1⟩

end Whisper
